import Mathlib

/-!
Shallow embedding of src/services/grpc/grpcService.js — the lnd gRPC service
lifecycle manager (state machine, connection establishment, subscription
registry with asynchronous cancellation confirmation).

Modelling conventions:
- The javascript-state-machine instance (lines 25-36) has states ready and
  connected with transitions connect : ready → connected and
  disconnect : connected → ready; an invalid transition throws and leaves
  the machine unchanged.  We model one service instance as a record and each
  externally triggered operation as a step function returning the error
  (if any) together with the next state.
- Asynchronous confirmation (the status callback of _cancelSubscription,
  lines 186-195) is modelled by folding the handler over the list of status
  codes the stream reports after call.cancel() is issued.
- establishConnection (lines 111-148) is modelled as the trace of actions it
  performs, parametrised by the outcome of the readiness probe, so that the
  ordering (client handle closed before the error surfaces) is explicit.
- Time-unit constants are carried literally: the macaroon-file wait ceiling
  20000 ms (line 131), the readiness-probe deadline 10 (line 142, seconds via
  getDeadline) and the settling delay 2000 ms (line 84).
-/

/-- gRPC status code OK (0) from the grpc-js status enum imported on line 3. -/
def statusOK : Nat := 0

/-- gRPC status code CANCELLED (1) from the grpc-js status enum imported on
line 3; the cancellation confirmation checked on line 189. -/
def statusCANCELLED : Nat := 1

/-- The fields of this.lndConfig read by _getConnectionSettings (line 204):
the instance identifier and the environment tag. -/
structure LndConfig where
  id : String
  type : String
deriving DecidableEq, Repr

/-- The instance-level flag set in the constructor, line 39:
this.useMacaroon = true. -/
def initUseMacaroon : Bool := true

/-- _getConnectionSettings (lines 203-211): useMacaroon is the instance flag
conjoined with id !== tmp (line 206); waitForMacaroon is type === local
(line 208).  Returned as (useMacaroon, waitForMacaroon). -/
def getConnectionSettings (useMacaroonFlag : Bool) (cfg : LndConfig) : Bool × Bool :=
  (useMacaroonFlag && !(cfg.id == "tmp"), cfg.type == "local")

/-- The externally visible actions establishConnection (lines 111-148)
performs, in program order. -/
inductive EstablishAction where
  | resolveProtoVersion
  | loadPackageDef
  | buildSslCreds
  | waitForMacaroonFile (ceilingMs : Nat)
  | buildMacaroonCreds
  | combineCreds
  | createClient
  | probeReady (deadlineSecs : Nat)
  | closeClient
  | throwErr (cause : String)
  | returnHandle
deriving DecidableEq, Repr

/-- The actions of establishConnection up to and including the readiness
probe (lines 116-142): resolve the proto version, load the package
definition, build ssl credentials, optionally wait up to 20000 ms for the
macaroon file and build/combine macaroon credentials (lines 128-135), create
the client (line 138) and issue the readiness probe with the fixed
10-time-unit deadline (line 142). -/
def connectionAttemptActions (useMacaroon waitForMacaroon : Bool) : List EstablishAction :=
  [EstablishAction.resolveProtoVersion, EstablishAction.loadPackageDef,
    EstablishAction.buildSslCreds]
    ++ (if useMacaroon then
          (if waitForMacaroon then [EstablishAction.waitForMacaroonFile 20000] else [])
            ++ [EstablishAction.buildMacaroonCreds, EstablishAction.combineCreds]
        else [])
    ++ [EstablishAction.createClient, EstablishAction.probeReady 10]

/-- establishConnection (lines 111-148) as its action trace, parametrised by
the readiness-probe outcome: none means the probe succeeded within its
deadline and the handle is returned; some cause means it failed or timed out
with that cause, in which case the catch block (lines 143-147) closes the
client handle and only then rethrows the cause.  The trace models the path
where the credential steps themselves succeed. -/
def establishConnection (useMacaroon waitForMacaroon : Bool)
    (probeFailure : Option String) : List EstablishAction :=
  connectionAttemptActions useMacaroon waitForMacaroon
    ++ (match probeFailure with
        | none => [EstablishAction.returnHandle]
        | some cause => [EstablishAction.closeClient, EstablishAction.throwErr cause])

/-- onBeforeConnect (lines 68-74): derive the connection settings and run
establishConnection with them. -/
def onBeforeConnect (useMacaroonFlag : Bool) (cfg : LndConfig)
    (probeFailure : Option String) : List EstablishAction :=
  establishConnection (getConnectionSettings useMacaroonFlag cfg).1
    (getConnectionSettings useMacaroonFlag cfg).2 probeFailure

/-- The two lifecycle states of the state machine (lines 25-30). -/
inductive FsmState where
  | ready
  | connected
deriving DecidableEq, Repr

/-- Errors a lifecycle transition can surface: the exception
javascript-state-machine throws on an invalid transition, or the connection
error (wrapping its cause) rethrown by establishConnection on a failed or
timed-out readiness probe. -/
inductive GrpcError where
  | invalidTransition
  | connectionError (cause : String)
deriving DecidableEq, Repr

/-- One GrpcService instance: the machine state, the subscription registry
(the keys of this.subscriptions, line 38), whether a client handle is open
(this.service, lines 40, 100, 138, 145), whether the post-connect settling
timer is scheduled but has not fired (lines 83-89), how many times the
subscribe() hook has been invoked, and the log of subscription-ended events
emitted by the end observer (line 163). -/
structure GrpcService where
  state : FsmState
  subscriptions : List String
  serviceOpen : Bool
  timerPending : Bool
  subscribeCount : Nat
  endedEvents : List String
deriving DecidableEq, Repr

/-- The constructor (lines 21-42): initial state ready, empty registry, no
client handle, no timer, no hook invocations, no events. -/
def initialService : GrpcService :=
  { state := FsmState.ready, subscriptions := [], serviceOpen := false,
    timerPending := false, subscribeCount := 0, endedEvents := [] }

/-- connect() (line 48) through the state machine: the guard admits it only
from ready (line 28), otherwise the transition throws and nothing changes;
from ready, onBeforeConnect runs establishConnection, whose readiness-probe
outcome is probeFailure — on failure the handle is closed (line 145) and the
transition aborts with the cause; on success the state flips to connected
and onAfterConnect (lines 79-91) schedules the 2000 ms settling timer
without blocking. -/
def connectStep (s : GrpcService) (probeFailure : Option String) :
    Option GrpcError × GrpcService :=
  if s.state ≠ FsmState.ready then (some GrpcError.invalidTransition, s)
  else
    match probeFailure with
    | some cause =>
        (some (GrpcError.connectionError cause), { s with serviceOpen := false })
    | none =>
        (none, { s with state := FsmState.connected, serviceOpen := true,
                        timerPending := true })

/-- disconnect() (line 51) through the state machine: the guard admits it
only from connected (line 29); onBeforeDisconnect (lines 96-102) awaits
unsubscribe() — modelled here as having completed, i.e. every registered
stream delivered its cancellation confirmation (the confirmation protocol
itself is cancelRun and unsubscribeRun below) — and then closes the client
handle.  The pending settling timer is not cancelled: the source keeps no
handle to it. -/
def disconnectStep (s : GrpcService) : Option GrpcError × GrpcService :=
  if s.state ≠ FsmState.connected then (some GrpcError.invalidTransition, s)
  else (none, { s with state := FsmState.ready, subscriptions := [],
                       serviceOpen := false })

/-- The settling timer from onAfterConnect firing after delay(2000)
(lines 83-88): re-check is connected at the end of the delay and only then
invoke subscribe(); hookSubs are the streams the subclass hook registers
into this.subscriptions. -/
def timerFire (s : GrpcService) (hookSubs : List String) : GrpcService :=
  if s.state = FsmState.connected then
    { s with timerPending := false, subscribeCount := s.subscribeCount + 1,
             subscriptions := s.subscriptions ++ hookSubs }
  else { s with timerPending := false }

/-- The end observer subscribe() attaches to each registered stream
(lines 160-166): when the stream signals natural end-of-stream the handler
logs one subscription-ended event for the key and deletes
this.subscriptions[key]. -/
def streamEnd (s : GrpcService) (key : String) : GrpcService :=
  { s with subscriptions := s.subscriptions.filter (fun k => k != key),
           endedEvents := s.endedEvents ++ [key] }

/-- Outcome of the synchronous body of _cancelSubscription (lines 182-201). -/
inductive JsOutcome where
  | ok
  | typeError
deriving DecidableEq, Repr

/-- The synchronous body of _cancelSubscription (lines 182-201): look up
this.subscriptions[key] (line 184); when the key is absent the lookup yields
undefined and call.on (line 188) throws a TypeError, so the returned promise
rejects; when present, the status handler is attached and call.cancel()
(line 198) is issued, the promise pending.  The registry is returned
unchanged in both cases: mutation happens only inside the status handler. -/
def cancelSubscriptionStart (subs : List String) (key : String) :
    JsOutcome × List String :=
  if key ∈ subs then (JsOutcome.ok, subs) else (JsOutcome.typeError, subs)

/-- One invocation of the status handler of _cancelSubscription
(lines 188-194) on the accumulator (resolved, registry): when the reported
code is CANCELLED, delete subscriptions[key] and resolve the promise; any
other status is ignored (there is no failure path). -/
def cancelStatusStep (key : String) (acc : Bool × List String) (code : Nat) :
    Bool × List String :=
  if code = statusCANCELLED then (true, acc.2.filter (fun k => k != key)) else acc

/-- The cancellation promise of _cancelSubscription after call.cancel() is
issued, run against the list of status codes the stream subsequently
reports: the promise starts unresolved and the registry starts at subs. -/
def cancelRun (subs : List String) (key : String) (codes : List Nat) :
    Bool × List String :=
  codes.foldl (cancelStatusStep key) (false, subs)

/-- unsubscribe (lines 172-177): Promise.all over _cancelSubscription of
every key registered at its start; statuses gives, per key, the status
codes that stream reports after its cancel.  Returns whether every
cancellation promise has resolved together with the remaining registry
(each handler deletes its own key exactly when it resolves). -/
def unsubscribeRun (subs : List String) (statuses : String → List Nat) :
    Bool × List String :=
  (subs.all (fun k => (cancelRun subs k (statuses k)).1),
   subs.filter (fun k => !(cancelRun subs k (statuses k)).1))

/-- A service in the connected state with one registered stream named x and
no events emitted yet; used to instantiate theorems at a concrete input. -/
def sampleRegisteredService : GrpcService :=
  { state := FsmState.connected, subscriptions := ["x"], serviceOpen := true,
    timerPending := false, subscribeCount := 1, endedEvents := [] }

/-- Filtering out a key is idempotent. -/
lemma filter_ne_idem (l : List String) (key : String) :
    (l.filter (fun k => k != key)).filter (fun k => k != key)
      = l.filter (fun k => k != key) := by
  induction l with
  | nil => rfl
  | cons a t ih =>
    by_cases h : a = key <;> simp [h, ih, List.filter_cons]

/-- Characterisation of the cancellation fold: the promise resolves exactly
when some reported code is CANCELLED, and the key is deleted from the
registry exactly then. -/
lemma cancelFold_eq (key : String) (codes : List Nat) :
    ∀ (b : Bool) (l : List String),
      codes.foldl (cancelStatusStep key) (b, l)
        = (b || codes.any (fun c => c == statusCANCELLED),
           if codes.any (fun c => c == statusCANCELLED)
           then l.filter (fun k => k != key) else l) := by
  induction codes with
  | nil => intro b l; simp
  | cons c cs ih =>
    intro b l
    by_cases hc : c = statusCANCELLED
    · simp [cancelStatusStep, hc, ih, filter_ne_idem]
    · have hc2 : (c == statusCANCELLED) = false := by simpa using hc
      simp [cancelStatusStep, hc, ih, hc2]

/-- cancelRun in closed form. -/
lemma cancelRun_eq (subs : List String) (key : String) (codes : List Nat) :
    cancelRun subs key codes
      = (codes.any (fun c => c == statusCANCELLED),
         if codes.any (fun c => c == statusCANCELLED)
         then subs.filter (fun k => k != key) else subs) := by
  simpa [cancelRun] using cancelFold_eq key codes false subs

/-- The Boolean scan for a CANCELLED code agrees with list membership. -/
lemma any_cancelled_iff (codes : List Nat) :
    codes.any (fun c => c == statusCANCELLED) = true ↔ statusCANCELLED ∈ codes := by
  simp [List.any_eq_true]

/-- A key never survives its own deletion filter. -/
lemma key_not_mem_filter (subs : List String) (key : String) :
    key ∉ subs.filter (fun k => k != key) := by
  simp [List.mem_filter]

/-- Claim C1: for a registered subscription name, _cancelSubscription issues
the cancel and returns a promise that is unresolved until the status
callback reports a status whose code equals the expected cancellation code
(gRPC CANCELLED), resolves exactly when such a status arrives, and upon that
confirmation the entry is removed from the registry. -/
theorem cancelOne_resolves_only_after_cancelled_confirmation
    (subs : List String) (key : String) (codes : List Nat) (hreg : key ∈ subs) :
    (cancelSubscriptionStart subs key).1 = JsOutcome.ok ∧
    (cancelRun subs key []).1 = false ∧
    ((cancelRun subs key codes).1 = true ↔ statusCANCELLED ∈ codes) ∧
    ((cancelRun subs key codes).1 = true → key ∉ (cancelRun subs key codes).2) := by
  refine ⟨?_, rfl, ?_, ?_⟩
  · simp [cancelSubscriptionStart, hreg]
  · rw [cancelRun_eq]
    exact any_cancelled_iff codes
  · rw [cancelRun_eq]
    intro h
    simp only at h
    simp [h, List.mem_filter]

/-- Witness for claim C1 at the registered name chan with status trace
[CANCELLED]. -/
theorem cancelOne_confirmation_witness :
    (cancelSubscriptionStart ["chan"] "chan").1 = JsOutcome.ok ∧
    (cancelRun ["chan"] "chan" []).1 = false ∧
    ((cancelRun ["chan"] "chan" [1]).1 = true ↔ statusCANCELLED ∈ ([1] : List Nat)) ∧
    ((cancelRun ["chan"] "chan" [1]).1 = true →
      "chan" ∉ (cancelRun ["chan"] "chan" [1]).2) :=
  cancelOne_resolves_only_after_cancelled_confirmation ["chan"] "chan" [1] (by decide)

/-- Claim C2: the state machine accepts connect only from ready and
disconnect only from connected; an invocation from any other state fails
with the invalid-transition error and leaves the whole instance — state and
subscription registry included — unchanged. -/
theorem invalid_transitions_rejected (s : GrpcService) (probeFailure : Option String) :
    (s.state ≠ FsmState.ready →
      connectStep s probeFailure = (some GrpcError.invalidTransition, s)) ∧
    (s.state ≠ FsmState.connected →
      disconnectStep s = (some GrpcError.invalidTransition, s)) ∧
    (s.state = FsmState.ready →
      (connectStep s probeFailure).1 ≠ some GrpcError.invalidTransition) ∧
    (s.state = FsmState.connected → (disconnectStep s).1 = none) := by
  refine ⟨?_, ?_, ?_, ?_⟩
  · intro h; simp [connectStep, h]
  · intro h; simp [disconnectStep, h]
  · intro h; cases probeFailure <;> simp [connectStep, h]
  · intro h; simp [disconnectStep, h]

/-- Claim C3: when the readiness probe (fixed 10-time-unit deadline) fails
or times out, establishConnection closes the partially-constructed client
handle before the error surfaces (closeClient precedes throwErr in the
trace), the propagated error wraps the underlying cause, the enclosing
connect transition aborts with state still ready, and no client-handle
resource is left open. -/
theorem probe_failure_cleanup
    (s : GrpcService) (cause : String) (um wm : Bool) (h : s.state = FsmState.ready) :
    establishConnection um wm (some cause)
      = connectionAttemptActions um wm
          ++ [EstablishAction.closeClient, EstablishAction.throwErr cause] ∧
    EstablishAction.probeReady 10 ∈ connectionAttemptActions um wm ∧
    connectStep s (some cause)
      = (some (GrpcError.connectionError cause), { s with serviceOpen := false }) ∧
    (connectStep s (some cause)).2.state = FsmState.ready ∧
    (connectStep s (some cause)).2.serviceOpen = false ∧
    (connectStep s (some cause)).2.subscriptions = s.subscriptions := by
  refine ⟨rfl, ?_, ?_, ?_, ?_, ?_⟩
  · cases um <;> cases wm <;> simp [connectionAttemptActions]
  · simp [connectStep, h]
  · simp [connectStep, h]
  · simp [connectStep, h]
  · simp [connectStep, h]

/-- Witness for claim C3: a freshly constructed service whose readiness
probe exceeds its deadline. -/
theorem probe_failure_cleanup_witness :
    establishConnection true true (some "deadline exceeded")
      = connectionAttemptActions true true
          ++ [EstablishAction.closeClient, EstablishAction.throwErr "deadline exceeded"] ∧
    EstablishAction.probeReady 10 ∈ connectionAttemptActions true true ∧
    connectStep initialService (some "deadline exceeded")
      = (some (GrpcError.connectionError "deadline exceeded"),
         { initialService with serviceOpen := false }) ∧
    (connectStep initialService (some "deadline exceeded")).2.state = FsmState.ready ∧
    (connectStep initialService (some "deadline exceeded")).2.serviceOpen = false ∧
    (connectStep initialService (some "deadline exceeded")).2.subscriptions
      = initialService.subscriptions :=
  probe_failure_cleanup initialService "deadline exceeded" true true rfl

/-- Claim C4: when disconnect completes before the post-connect settling
timer fires, the end-of-delay state check finds the machine no longer
connected, the subscription-registration hook is never invoked (the hook
invocation count is unchanged), and zero subscriptions end up registered in
that connect/disconnect cycle, whatever streams the subclass hook would
have registered. -/
theorem disconnect_before_delay_skips_subscribe
    (s : GrpcService) (hookSubs : List String) (h : s.state = FsmState.ready) :
    (connectStep s none).1 = none ∧
    (disconnectStep (connectStep s none).2).1 = none ∧
    (disconnectStep (connectStep s none).2).2.state ≠ FsmState.connected ∧
    (timerFire (disconnectStep (connectStep s none).2).2 hookSubs).subscribeCount
      = s.subscribeCount ∧
    (timerFire (disconnectStep (connectStep s none).2).2 hookSubs).subscriptions = [] := by
  simp [connectStep, disconnectStep, timerFire, h]

/-- Witness for claim C4: a fresh service, connect then disconnect before
the timer fires, with the hook poised to register an invoices stream. -/
theorem disconnect_before_delay_skips_subscribe_witness :
    (connectStep initialService none).1 = none ∧
    (disconnectStep (connectStep initialService none).2).1 = none ∧
    (disconnectStep (connectStep initialService none).2).2.state ≠ FsmState.connected ∧
    (timerFire (disconnectStep (connectStep initialService none).2).2
        ["invoices"]).subscribeCount = initialService.subscribeCount ∧
    (timerFire (disconnectStep (connectStep initialService none).2).2
        ["invoices"]).subscriptions = [] :=
  disconnect_before_delay_skips_subscribe initialService ["invoices"] rfl

/-- Claim C5: the derived connection settings satisfy both invariants — for
the identifier tmp the useMacaroon (useSecretToken) setting is false
whatever the environment tag and whatever the instance flag, and
waitForMacaroon (waitForSecretToken) is true exactly for the environment
tag local and false for every other tag. -/
theorem connection_settings_invariants (flag : Bool) (cfg : LndConfig) :
    (cfg.id = "tmp" → (getConnectionSettings flag cfg).1 = false) ∧
    ((getConnectionSettings flag cfg).2 = true ↔ cfg.type = "local") ∧
    (cfg.type ≠ "local" → (getConnectionSettings flag cfg).2 = false) := by
  refine ⟨?_, ?_, ?_⟩
  · intro h; simp [getConnectionSettings, h]
  · simp [getConnectionSettings]
  · intro h; simp [getConnectionSettings, h]

/-- Claim C6: unsubscribe on an empty registry resolves immediately with no
side effects; in general it resolves exactly once every stream registered
at its start has delivered its cancellation confirmation, and once it has
resolved the registry contains no entries. -/
theorem unsubscribe_resolves_after_all_confirmations
    (subs : List String) (statuses : String → List Nat) :
    unsubscribeRun [] statuses = (true, []) ∧
    ((unsubscribeRun subs statuses).1 = true ↔
      ∀ k ∈ subs, statusCANCELLED ∈ statuses k) ∧
    ((unsubscribeRun subs statuses).1 = true → (unsubscribeRun subs statuses).2 = []) := by
  refine ⟨rfl, ?_, ?_⟩
  · simp [unsubscribeRun, cancelRun_eq, List.all_eq_true, any_cancelled_iff]
  · intro h
    simp only [unsubscribeRun, List.all_eq_true] at h
    simp only [unsubscribeRun]
    rw [List.filter_eq_nil_iff]
    intro k hk
    simp [h k hk]

/-- Counterexample to claim C7 at the concrete input of an empty registry
and the name x: _cancelSubscription is not a no-op that resolves
immediately — the lookup yields undefined and attaching the status handler
throws a TypeError. -/
theorem cancelOne_unregistered_not_noop_cex :
    (cancelSubscriptionStart [] "x").1 = JsOutcome.typeError ∧
    ¬ (cancelSubscriptionStart [] "x").1 = JsOutcome.ok := by decide

/-- Claim C7 as amended: for every name with no entry in the registry,
_cancelSubscription fails with a TypeError (this.subscriptions[key] is
undefined, so call.on throws and the returned promise rejects) rather than
resolving; the registry itself is left unchanged. -/
theorem cancelOne_unregistered_throws
    (subs : List String) (key : String) (h : key ∉ subs) :
    cancelSubscriptionStart subs key = (JsOutcome.typeError, subs) := by
  simp [cancelSubscriptionStart, h]

/-- Witness for the amended claim C7: an unregistered name against a
registry holding one other stream. -/
theorem cancelOne_unregistered_throws_witness :
    cancelSubscriptionStart ["chan"] "x" = (JsOutcome.typeError, ["chan"]) :=
  cancelOne_unregistered_throws ["chan"] "x" (by decide)

/-- Claim C8: when a registered stream signals natural end-of-stream, the
end observer removes the registry entry for that name and emits exactly one
subscription-ended event for it. -/
theorem stream_end_removes_entry_and_emits_once
    (s : GrpcService) (key : String) (_hreg : key ∈ s.subscriptions) :
    key ∉ (streamEnd s key).subscriptions ∧
    (streamEnd s key).endedEvents.count key = s.endedEvents.count key + 1 := by
  constructor
  · simp [streamEnd, List.mem_filter]
  · simp [streamEnd]

/-- Witness for claim C8: the connected service with the registered stream
x, whose natural end leaves the registry without x and the event count for
x at exactly one. -/
theorem stream_end_removes_entry_and_emits_once_witness :
    "x" ∉ (streamEnd sampleRegisteredService "x").subscriptions ∧
    (streamEnd sampleRegisteredService "x").endedEvents.count "x"
      = sampleRegisteredService.endedEvents.count "x" + 1 :=
  stream_end_removes_entry_and_emits_once sampleRegisteredService "x" (by decide)

/-- Counterexample to claim C9 at the concrete input of the registered
stream x whose cancellation is in flight when the stream reports the
natural final status OK: the cancellation promise does not resolve, because
the status handler resolves only on the CANCELLED code. -/
theorem natural_end_mid_teardown_no_resolve_cex :
    ¬ ((cancelRun ["x"] "x" [statusOK]).1 = true) := by decide

/-- Claim C9 as amended: a registered stream that reports a final status
other than the cancellation code while cancellation is in flight raises no
failure (the status handler has no error path and simply ignores the
status), but the cancelOne/cancelAll future for it does not resolve on that
status — it stays pending, and the handler leaves the registry untouched,
until a CANCELLED status arrives. -/
theorem natural_end_mid_teardown_pending
    (subs : List String) (key : String) (codes : List Nat)
    (h : statusCANCELLED ∉ codes) :
    cancelRun subs key codes = (false, subs) := by
  have hfalse : (codes.any fun c => c == statusCANCELLED) = false := by
    rw [List.any_eq_false]
    intro x hx
    simp only [beq_iff_eq]
    intro hxe
    exact h (hxe ▸ hx)
  rw [cancelRun_eq]
  simp [hfalse]

/-- Witness for the amended claim C9: the stream x reporting the natural
final status OK mid-teardown. -/
theorem natural_end_mid_teardown_pending_witness :
    cancelRun ["x"] "x" [statusOK] = (false, ["x"]) :=
  natural_end_mid_teardown_pending ["x"] "x" [statusOK] (by decide)

/-- Claim C10: the derived useMacaroon (useSecretToken) setting is the
conjunction of the instance-level flag — initialised to true in the
constructor — with the config check id not equal to tmp; with the instance
flag cleared, macaroon call credentials are never built or combined onto
the channel credentials for any configuration. -/
theorem cleared_macaroon_flag_disables_call_credentials
    (flag : Bool) (cfg : LndConfig) (probeFailure : Option String) :
    initUseMacaroon = true ∧
    (getConnectionSettings flag cfg).1 = (flag && !(cfg.id == "tmp")) ∧
    (getConnectionSettings false cfg).1 = false ∧
    EstablishAction.buildMacaroonCreds ∉ onBeforeConnect false cfg probeFailure ∧
    EstablishAction.combineCreds ∉ onBeforeConnect false cfg probeFailure := by
  refine ⟨rfl, rfl, rfl, ?_, ?_⟩ <;>
    cases probeFailure <;>
      simp [onBeforeConnect, establishConnection, connectionAttemptActions,
        getConnectionSettings]
